import Mathlib

/-!
Verification development for the `secludia` native shell
(`src/src-tauri/src/lib.rs`), focused on the OAuth callback interception
flow (`open_oauth_window`), the stronghold key-derivation closure, and the
early permission-reset routine.

The Rust code is shallowly embedded: each event handler becomes a pure
transition function on an explicit flow state, the waiter loop body becomes
a step function on its observed inputs, and the filesystem routine becomes
a transformer on an explicit filesystem model.
-/

deriving instance DecidableEq for Except

namespace Secludia

/-- Marker file name for permission reset (`RESET_MARKER_FILE`, lib.rs line 12). -/
def RESET_MARKER_FILE : String := ".reset_permissions"

/-- OAuth redirect URI literal (`OAUTH_REDIRECT_PREFIX`, lib.rs line 15). -/
def oauthRedirectUri : String := "http://localhost/oauth/callback"

/-- Rust `str::starts_with(pat)` for a string pattern: `pat`'s bytes are a
prefix of `s`'s bytes, equivalently (for valid UTF-8) `pat`'s characters
are a prefix of `s`'s characters. -/
def strStartsWith (s pat : String) : Bool :=
  pat.data.isPrefixOf s.data

/-- The slot content type: Rust `Result<String, String>` stored inside the
`Mutex<Option<...>>` of `OAuthState` (lib.rs lines 110-113). -/
abbrev SlotValue := Except String String

/-- Observable state of one OAuth flow: the `OAuthState.result` slot plus
whether destruction of the child window has been requested
(`window.close()` in the page-load handler). -/
structure FlowState where
  slot : Option SlotValue
  destroyRequested : Bool
  deriving Repr, DecidableEq

/-- The state in which a flow starts: `result: Mutex::new(None)`
(lib.rs lines 132-134), no destruction requested yet. -/
def initialState : FlowState := { slot := none, destroyRequested := false }

/-- Tauri `PageLoadEvent` together with the payload URL delivered to the
`on_page_load` handler. -/
inductive PageLoad where
  | started (url : String)
  | finished (url : String)
  deriving Repr, DecidableEq

/-- The `on_page_load` handler of `open_oauth_window` (lib.rs lines 147-165):
only `PageLoadEvent::Started` is examined; if the URL starts with the
redirect literal, the slot is overwritten with `Ok(url)` (no emptiness
check in the source) and `window.close()` is called; otherwise nothing
happens. -/
def onPageLoad (s : FlowState) (e : PageLoad) : FlowState :=
  match e with
  | .started url =>
      if strStartsWith url oauthRedirectUri then
        { slot := some (.ok url), destroyRequested := true }
      else s
  | .finished _ => s

/-- Window lifecycle events delivered to the `on_window_event` handler.
`other` stands for every `WindowEvent` variant that is neither
`CloseRequested` nor `Destroyed` (moved, resized, focused, ...). -/
inductive WinEvent where
  | closeRequested
  | destroyed
  | other
  deriving Repr, DecidableEq

/-- The `on_window_event` handler (lib.rs lines 171-180): on
`CloseRequested` or `Destroyed`, if the slot is still empty it is set to
`Err("OAUTH_CANCELLED")`; a filled slot is left untouched. -/
def onWindowEvent (s : FlowState) (e : WinEvent) : FlowState :=
  match e with
  | .closeRequested | .destroyed =>
      if s.slot.isNone then { s with slot := some (.error "OAUTH_CANCELLED") } else s
  | .other => s

/-- An event delivered to the flow: either a page-load event seen by the
redirect watcher or a window lifecycle event seen by the close observer. -/
inductive FlowEvent where
  | pageLoad (e : PageLoad)
  | window (e : WinEvent)
  deriving Repr, DecidableEq

/-- One event dispatch: route the event to the handler that receives it. -/
def step (s : FlowState) : FlowEvent → FlowState
  | .pageLoad e => onPageLoad s e
  | .window e => onWindowEvent s e

/-- Deliver a sequence of events in order, starting from a given state. -/
def runEvents (s : FlowState) (es : List FlowEvent) : FlowState :=
  es.foldl step s

/-- The waiter timeout: `Duration::from_secs(300)` (lib.rs line 183),
in milliseconds. -/
def TIMEOUT_MS : Nat := 300000

/-- Outcome of one iteration of the waiter loop body. -/
inductive WaiterStep where
  | ret (r : SlotValue)
  | timeoutRet (closedWindow : Bool)
  | sleep
  deriving Repr, DecidableEq

/-- One iteration of the waiter loop (lib.rs lines 186-205): the slot is
read first and, if filled, its clone is returned; otherwise if
`start.elapsed() > timeout` the window is closed when it still exists and
`Err("OAUTH_TIMEOUT")` is returned; otherwise the waiter sleeps 100 ms and
polls again. `elapsedMs` is the elapsed wall-clock time at this check in
milliseconds, `windowExists` whether `app.get_webview_window("oauth")`
finds the child window. -/
def waiterStep (slot : Option SlotValue) (elapsedMs : Nat) (windowExists : Bool) :
    WaiterStep :=
  match slot with
  | some r => .ret r
  | none =>
      if TIMEOUT_MS < elapsedMs then .timeoutRet windowExists
      else .sleep

/-- The value the command returns when a waiter iteration terminates the
loop (`none` while the loop keeps polling). -/
def waiterReturn : WaiterStep → Option SlotValue
  | .ret r => some r
  | .timeoutRet _ => some (.error "OAUTH_TIMEOUT")
  | .sleep => none

/-- Reading the slot under the mutex (`oauth_state.result.lock()` followed
by `r.clone()`): returns a clone of the content and leaves the state
untouched. -/
def readSlot (s : FlowState) : Option SlotValue × FlowState :=
  (s.slot, s)

/-- The fields of a parsed `url::Url` that `open_oauth_window` inspects:
`scheme()` and `host_str()`. -/
structure ParsedUrl where
  scheme : String
  host : Option String
  deriving Repr, DecidableEq

/-- The scheme check of `open_oauth_window` (lib.rs lines 125-129):
`https` with any host passes, `http` passes only when the host is exactly
`localhost`, everything else is rejected with the fixed message. -/
def validateScheme (u : ParsedUrl) : Except String Unit :=
  if u.scheme = "https" then .ok ()
  else if u.scheme = "http" ∧ u.host = some "localhost" then .ok ()
  else .error "OAuth URL must use HTTPS"

/-- The validation phase of `open_oauth_window` (lib.rs lines 118-134):
`url.parse()` is modelled by its outcome `parseResult`; a parse error `e`
is returned as `format!("Invalid URL: \x7b\x7d", e)`, a disallowed scheme
as `"OAuth URL must use HTTPS"`, and only on success is the `OAuthState`
slot created (empty) for the rest of the command. -/
def openOAuthWindowStart (parseResult : Except String ParsedUrl) :
    Except String FlowState :=
  match parseResult with
  | .error e => .error ("Invalid URL: " ++ e)
  | .ok u =>
      match validateScheme u with
      | .error m => .error m
      | .ok _ => .ok initialState

/-- The standard Base64 alphabet. -/
def b64Alphabet : List Char :=
  "ABCDEFGHIJKLMNOPQRSTUVWXYZabcdefghijklmnopqrstuvwxyz0123456789+/".data

/-- The Base64 digit for a 6-bit value. -/
def b64Char (n : Nat) : Char := b64Alphabet.getD n 'A'

/-- Unpadded standard Base64 of a byte sequence, as used by
`password_hash::SaltString::encode_b64`. -/
def encodeB64 : List Nat → List Char
  | [] => []
  | [b0] => [b64Char (b0 / 4), b64Char (b0 % 4 * 16)]
  | [b0, b1] =>
      [b64Char (b0 / 4), b64Char (b0 % 4 * 16 + b1 / 16), b64Char (b1 % 16 * 4)]
  | b0 :: b1 :: b2 :: rest =>
      b64Char (b0 / 4) :: b64Char (b0 % 4 * 16 + b1 / 16) ::
      b64Char (b1 % 16 * 4 + b2 / 64) :: b64Char (b2 % 64) :: encodeB64 rest

/-- The bytes of an ASCII string literal (`b"..."` in Rust). -/
def stringBytes (s : String) : List Nat := s.data.map Char.toNat

/-- `SaltString::encode_b64(b"secludia-stronghold")` (lib.rs line 228): the
fixed salt used by the stronghold key-derivation closure. -/
def strongholdSalt : String := ⟨encodeB64 (stringBytes "secludia-stronghold")⟩

/-- The stronghold key-derivation closure (lib.rs lines 222-240), with the
Argon2 primitive `argon2.hash_password` abstracted as `hash` (a function of
the password bytes and the salt string): the closure always calls it with
the fixed salt `strongholdSalt` and returns its output bytes. -/
def strongholdKeyDerive (hash : String → String → List Nat) (password : String) :
    List Nat :=
  hash password strongholdSalt

/-- A filesystem path as a list of components. -/
abbrev Path := List String

/-- The filesystem as `check_and_reset_permissions_early` observes it:
`dirs::data_local_dir()` and the set of existing entries (files and
directories), each entry listed with its full path. -/
structure FileSystem where
  dataLocalDir : Option Path
  entries : List Path
  deriving Repr, DecidableEq

/-- `check_and_reset_permissions_early` (lib.rs lines 50-83) as a
filesystem transformer. `ident` is the app identifier read from
`tauri.conf.json`; `webviewFolder` the platform WebView folder name
(`EBWebView` or `WebKit`). If the local data directory cannot be
determined, or the marker file does not exist, the filesystem is returned
unchanged; otherwise the WebView directory subtree is removed (when
present) and then the marker file is removed. -/
def checkAndResetPermissionsEarly (ident webviewFolder : String)
    (fs : FileSystem) : FileSystem :=
  match fs.dataLocalDir with
  | none => fs
  | some dataDir =>
      let appDataDir := dataDir ++ [ident]
      let markerPath := appDataDir ++ [RESET_MARKER_FILE]
      if markerPath ∈ fs.entries then
        let webviewDir := appDataDir ++ [webviewFolder]
        let fs1 : FileSystem :=
          if webviewDir ∈ fs.entries then
            { fs with entries := fs.entries.filter (fun p => !(webviewDir.isPrefixOf p)) }
          else fs
        { fs1 with entries := fs1.entries.filter (fun p => !(p == markerPath)) }
      else fs

/-- Every value the handlers can ever put into the slot: a matched redirect
URL stored as `Ok`, or the cancellation error. (`Err("OAUTH_TIMEOUT")` is
returned by the waiter directly and never stored in the slot.) -/
def SlotInv (s : FlowState) : Prop :=
  match s.slot with
  | none => True
  | some (.ok url) => strStartsWith url oauthRedirectUri = true
  | some (.error m) => m = "OAUTH_CANCELLED"

/-! ## Theorems -/

theorem slotInv_initial : SlotInv initialState := by
  simp [SlotInv, initialState]

theorem slotInv_step (s : FlowState) (e : FlowEvent) (h : SlotInv s) :
    SlotInv (step s e) := by
  cases e with
  | pageLoad pl =>
      cases pl with
      | started url =>
          by_cases hm : strStartsWith url oauthRedirectUri = true
          · simp [step, onPageLoad, hm, SlotInv]
          · simp only [step, onPageLoad]
            rw [if_neg (by simpa using hm)]
            exact h
      | finished url => simpa [step, onPageLoad] using h
  | window we =>
      cases we with
      | closeRequested | destroyed =>
          by_cases hn : s.slot.isNone
          · simp [step, onWindowEvent, hn, SlotInv]
          · simpa [step, onWindowEvent, hn] using h
      | other => simpa [step, onWindowEvent] using h

theorem slotInv_runEvents (es : List FlowEvent) (s : FlowState) (h : SlotInv s) :
    SlotInv (runEvents s es) := by
  induction es generalizing s with
  | nil => simpa [runEvents] using h
  | cons e es ih =>
      simpa [runEvents] using ih (step s e) (slotInv_step s e h)

/-- Claim C2: a navigation-started event whose URL begins with the literal
`http://localhost/oauth/callback` — and only such an event — sets the
ResultSlot to `Ok` carrying the full URL verbatim and requests destruction
of the child window; a started event with any other URL leaves the state
exactly as it was. -/
theorem redirect_match_sets_success_iff (s : FlowState) (url : String) :
    (strStartsWith url oauthRedirectUri = true →
      onPageLoad s (.started url)
        = { slot := some (.ok url), destroyRequested := true }) ∧
    (strStartsWith url oauthRedirectUri = false →
      onPageLoad s (.started url) = s) := by
  constructor <;> intro h <;> simp [onPageLoad, h]

/-- Witness for C2 at the spec's scenario URL and at a non-matching URL. -/
theorem redirect_match_sets_success_iff_witness :
    onPageLoad initialState (.started "http://localhost/oauth/callback?code=XYZ&state=1")
      = { slot := some (.ok "http://localhost/oauth/callback?code=XYZ&state=1"),
          destroyRequested := true } ∧
    onPageLoad initialState (.started "https://idp.example.com/authorize?client_id=abc")
      = initialState :=
  ⟨(redirect_match_sets_success_iff initialState
      "http://localhost/oauth/callback?code=XYZ&state=1").1 (by decide),
   (redirect_match_sets_success_iff initialState
      "https://idp.example.com/authorize?client_id=abc").2 (by decide)⟩

/-- Claim C5: a close-requested or destroyed event sets an empty slot to
`Err("OAUTH_CANCELLED")` and leaves a filled slot (and the whole state)
unchanged; the waiter surfaces the stored cancellation verbatim. -/
theorem close_event_cancels_iff_empty (s : FlowState) (e : WinEvent)
    (he : e = .closeRequested ∨ e = .destroyed) :
    (s.slot = none →
      onWindowEvent s e = { s with slot := some (.error "OAUTH_CANCELLED") }) ∧
    (∀ v, s.slot = some v → onWindowEvent s e = s) ∧
    (∀ elapsedMs windowExists,
      waiterReturn (waiterStep (some (.error "OAUTH_CANCELLED")) elapsedMs windowExists)
        = some (.error "OAUTH_CANCELLED")) := by
  refine ⟨?_, ?_, ?_⟩
  · intro hn
    rcases he with rfl | rfl <;> simp [onWindowEvent, hn]
  · intro v hv
    rcases he with rfl | rfl <;> simp [onWindowEvent, hv]
  · intro elapsedMs windowExists
    simp [waiterStep, waiterReturn]

/-- Witness for C5: closing with an empty slot records the cancellation. -/
theorem close_event_cancels_iff_empty_witness :
    onWindowEvent initialState .closeRequested
      = { slot := some (.error "OAUTH_CANCELLED"), destroyRequested := false } :=
  (close_event_cancels_iff_empty initialState .closeRequested (Or.inl rfl)).1 rfl

/-- Claim C7: the watcher ignores every page-load event that is not
navigation-started, and a started event with a non-matching URL has no
observable effect: the whole state — slot and destruction request alike —
is unchanged. -/
theorem watcher_frame_condition (s : FlowState) (url : String) :
    onPageLoad s (.finished url) = s ∧
    (strStartsWith url oauthRedirectUri = false →
      onPageLoad s (.started url) = s) := by
  exact ⟨rfl, fun h => by simp [onPageLoad, h]⟩

/-- Witness for C7: a finished event and a non-matching started event leave
the initial state untouched. -/
theorem watcher_frame_condition_witness :
    onPageLoad initialState (.finished "http://localhost/oauth/callback?code=1")
        = initialState ∧
    onPageLoad initialState (.started "https://idp.example.com/authorize")
        = initialState :=
  ⟨(watcher_frame_condition initialState "http://localhost/oauth/callback?code=1").1,
   (watcher_frame_condition initialState "https://idp.example.com/authorize").2 (by decide)⟩

/-- Claim C8: reading the resolved result out of the slot does not change
the state, so reading it again yields the same value. -/
theorem readSlot_idempotent (s : FlowState) :
    (readSlot s).1 = s.slot ∧ (readSlot s).2 = s ∧
    (readSlot (readSlot s).2).1 = (readSlot s).1 := by
  exact ⟨rfl, rfl, rfl⟩

/-- Counterexample to claim C1 as stated: after a close event has filled
the slot with `Err("OAUTH_CANCELLED")`, a later matching navigation-started
event does change the slot — the page-load handler stores `Ok(url)` without
checking whether the slot is already filled. -/
theorem late_redirect_overwrites_filled_slot :
    (runEvents initialState [.window .closeRequested]).slot
        = some (.error "OAUTH_CANCELLED") ∧
    (runEvents initialState [.window .closeRequested,
        .pageLoad (.started "http://localhost/oauth/callback?code=XYZ&state=1")]).slot
        = some (.ok "http://localhost/oauth/callback?code=XYZ&state=1") ∧
    (runEvents initialState [.window .closeRequested,
        .pageLoad (.started "http://localhost/oauth/callback?code=XYZ&state=1")]).slot
      ≠ (runEvents initialState [.window .closeRequested]).slot := by
  refine ⟨by simp [runEvents, step, onWindowEvent, initialState], ?_, ?_⟩ <;>
    simp [runEvents, step, onWindowEvent, onPageLoad, initialState, strStartsWith,
      oauthRedirectUri, List.isPrefixOf]

/-- Claim C1 (amended): once the ResultSlot holds a value, window close
events, non-matching or non-started page-load events, and waiter checks
leave it unchanged; a matching navigation-started event, however,
overwrites it unconditionally with `Ok` of the new URL. -/
theorem first_writer_wins_except_redirect (s : FlowState) (v : SlotValue)
    (h : s.slot = some v) :
    (∀ e : WinEvent, (onWindowEvent s e).slot = some v) ∧
    (∀ url, strStartsWith url oauthRedirectUri = false →
        (onPageLoad s (.started url)).slot = some v) ∧
    (∀ url, (onPageLoad s (.finished url)).slot = some v) ∧
    (∀ url, strStartsWith url oauthRedirectUri = true →
        (onPageLoad s (.started url)).slot = some (.ok url)) ∧
    (∀ elapsedMs windowExists, waiterStep s.slot elapsedMs windowExists = .ret v) := by
  refine ⟨?_, ?_, ?_, ?_, ?_⟩
  · intro e
    cases e <;> simp [onWindowEvent, h]
  · intro url hu
    simp [onPageLoad, hu, h]
  · intro url
    simp [onPageLoad, h]
  · intro url hu
    simp [onPageLoad, hu]
  · intro elapsedMs windowExists
    rw [h]
    rfl

/-- Witness for the amended C1: a filled (cancelled) slot survives a
destroyed event. -/
theorem first_writer_wins_except_redirect_witness :
    (onWindowEvent
        { slot := some (.error "OAUTH_CANCELLED"), destroyRequested := false }
        .destroyed).slot
      = some (.error "OAUTH_CANCELLED") :=
  (first_writer_wins_except_redirect
    { slot := some (.error "OAUTH_CANCELLED"), destroyRequested := false }
    (.error "OAUTH_CANCELLED") rfl).1 .destroyed

/-- Claim C3: an unparsable URL makes `open_oauth_window` fail with the
`Invalid URL:`-prefixed message, which is always distinct from the scheme
error; a parsed URL whose scheme is neither `https` nor `http` with host
exactly `localhost` fails with `OAuth URL must use HTTPS`; and a non-error
outcome always carries a freshly created empty slot, so a failure produces
no flow state at all. -/
theorem openOAuthWindow_url_validation :
    (∀ e, openOAuthWindowStart (.error e) = .error ("Invalid URL: " ++ e) ∧
        ("Invalid URL: " ++ e) ≠ "OAuth URL must use HTTPS") ∧
    (∀ u : ParsedUrl,
        ¬(u.scheme = "https" ∨ (u.scheme = "http" ∧ u.host = some "localhost")) →
        openOAuthWindowStart (.ok u) = .error "OAuth URL must use HTTPS") ∧
    (∀ r s, openOAuthWindowStart r = .ok s → s = initialState) := by
  refine ⟨fun e => ⟨rfl, ?_⟩, fun u hu => ?_, fun r s hs => ?_⟩
  · intro hcontra
    have h2 : ("Invalid URL: " ++ e).data
        = ("OAuth URL must use HTTPS" : String).data := by rw [hcontra]
    rw [String.data_append] at h2
    simp at h2
  · simp only [openOAuthWindowStart, validateScheme]
    rw [if_neg (fun h1 => hu (Or.inl h1)),
        if_neg (fun h2 => hu (Or.inr h2))]
  · cases r with
    | error e => exact absurd hs (by simp [openOAuthWindowStart])
    | ok u =>
        simp only [openOAuthWindowStart] at hs
        rcases hv : validateScheme u with m | x <;> rw [hv] at hs
        · exact absurd hs (by simp)
        · simpa using hs.symm

/-- Witness for C3: the spec's scenario `http://evil.com/authorize` is
rejected with the scheme error, and a concrete parse failure yields the
distinct `Invalid URL:` message. -/
theorem openOAuthWindow_url_validation_witness :
    (openOAuthWindowStart (.error "relative URL without a base")
        = .error ("Invalid URL: " ++ "relative URL without a base") ∧
      ("Invalid URL: " ++ "relative URL without a base")
        ≠ "OAuth URL must use HTTPS") ∧
    openOAuthWindowStart (.ok { scheme := "http", host := some "evil.com" })
      = .error "OAuth URL must use HTTPS" :=
  ⟨openOAuthWindow_url_validation.1 "relative URL without a base",
   openOAuthWindow_url_validation.2.1 { scheme := "http", host := some "evil.com" }
     (by intro h; rcases h with h | ⟨h1, h2⟩ <;> simp_all)⟩

/-- Claim C4: when the deadline check finds the slot empty and the elapsed
time beyond 300 seconds, the waiter requests destruction of the child
window exactly when it still exists and returns `Err("OAUTH_TIMEOUT")`; a
filled slot is always returned in preference to the timeout, and a timeout
outcome can only arise from an empty slot. The check consumes no close
event — it depends only on the slot, the clock, and window existence. -/
theorem waiter_timeout_only_when_empty :
    (∀ elapsedMs windowExists, TIMEOUT_MS < elapsedMs →
        waiterStep none elapsedMs windowExists = .timeoutRet windowExists ∧
        waiterReturn (waiterStep none elapsedMs windowExists)
          = some (.error "OAUTH_TIMEOUT")) ∧
    (∀ r elapsedMs windowExists,
        waiterStep (some r) elapsedMs windowExists = .ret r) ∧
    (∀ slot elapsedMs windowExists b,
        waiterStep slot elapsedMs windowExists = .timeoutRet b →
        slot = none ∧ b = windowExists) := by
  refine ⟨fun elapsedMs windowExists h => ?_, fun r elapsedMs windowExists => rfl,
    fun slot elapsedMs windowExists b hb => ?_⟩
  · rw [waiterStep, if_pos h]
    exact ⟨rfl, rfl⟩
  · cases slot with
    | some r => exact absurd hb (by simp [waiterStep])
    | none =>
        rw [waiterStep] at hb
        by_cases h : TIMEOUT_MS < elapsedMs
        · rw [if_pos h] at hb
          exact ⟨rfl, (WaiterStep.timeoutRet.injEq _ _).mp hb.symm⟩
        · rw [if_neg h] at hb
          exact absurd hb (by simp)

/-- Witness for C4: at 300.001 s with an empty slot and a live window, the
check closes the window and returns the timeout error. -/
theorem waiter_timeout_only_when_empty_witness :
    waiterStep none 300001 true = .timeoutRet true ∧
    waiterReturn (waiterStep none 300001 true) = some (.error "OAUTH_TIMEOUT") :=
  waiter_timeout_only_when_empty.1 300001 true (by decide)

/-- Claim C6: whatever events were delivered, once the waiter sees a filled
slot it returns exactly the stored value: `Ok` of the matched callback URL
for a successful redirect, or the error `OAUTH_CANCELLED`; the timeout path
returns the error `OAUTH_TIMEOUT`, distinct from the cancellation error. -/
theorem waiter_returns_stored_result (es : List FlowEvent) (r : SlotValue)
    (elapsedMs : Nat) (windowExists : Bool)
    (h : (runEvents initialState es).slot = some r) :
    waiterReturn (waiterStep (runEvents initialState es).slot elapsedMs windowExists)
        = some r ∧
    ((∃ url, r = .ok url ∧ strStartsWith url oauthRedirectUri = true) ∨
      r = .error "OAUTH_CANCELLED") ∧
    (∀ b, waiterReturn (.timeoutRet b) = some (.error "OAUTH_TIMEOUT")) ∧
    ("OAUTH_CANCELLED" : String) ≠ "OAUTH_TIMEOUT" := by
  refine ⟨by rw [h]; rfl, ?_, fun b => rfl, by decide⟩
  have inv := slotInv_runEvents es initialState slotInv_initial
  rw [SlotInv, h] at inv
  cases r with
  | ok url => exact Or.inl ⟨url, rfl, inv⟩
  | error m => exact Or.inr (by rw [inv])

/-- Witness for C6 after a single cancellation event. -/
theorem waiter_returns_stored_result_witness :
    waiterReturn (waiterStep
        (runEvents initialState [.window .closeRequested]).slot 0 true)
      = some (.error "OAUTH_CANCELLED") :=
  (waiter_returns_stored_result [.window .closeRequested]
    (.error "OAUTH_CANCELLED") 0 true
    (by simp [runEvents, step, onWindowEvent, initialState])).1

/-- Claim C9: the stronghold key-derivation closure is deterministic — for
any model of the Argon2 primitive producing 32-byte outputs, equal
passwords give equal derived keys, the key has 32 bytes, and the salt
passed is the fixed Base64 encoding of `secludia-stronghold`, independent
of the password. -/
theorem strongholdKeyDerive_deterministic
    (hash : String → String → List Nat)
    (h32 : ∀ pw salt, (hash pw salt).length = 32)
    (p q : String) (hpq : p = q) :
    strongholdKeyDerive hash p = strongholdKeyDerive hash q ∧
    (strongholdKeyDerive hash p).length = 32 ∧
    strongholdSalt = "c2VjbHVkaWEtc3Ryb25naG9sZA" := by
  subst hpq
  exact ⟨rfl, h32 p strongholdSalt, by decide⟩

/-- Witness for C9 with a concrete 32-byte hash model. -/
theorem strongholdKeyDerive_deterministic_witness :
    strongholdKeyDerive (fun _ _ => List.replicate 32 0) "hunter2"
        = strongholdKeyDerive (fun _ _ => List.replicate 32 0) "hunter2" ∧
    (strongholdKeyDerive (fun _ _ => List.replicate 32 0) "hunter2").length = 32 ∧
    strongholdSalt = "c2VjbHVkaWEtc3Ryb25naG9sZA" :=
  strongholdKeyDerive_deterministic (fun _ _ => List.replicate 32 0)
    (fun _ _ => by simp) "hunter2" "hunter2" rfl

/-- Claim C10: `check_and_reset_permissions_early` leaves the filesystem
untouched when the local data directory cannot be determined or when the
reset marker file does not exist, and any modification it makes implies the
marker was present. -/
theorem checkAndReset_noop_without_marker (ident webviewFolder : String)
    (fs : FileSystem) :
    (fs.dataLocalDir = none →
        checkAndResetPermissionsEarly ident webviewFolder fs = fs) ∧
    (∀ d, fs.dataLocalDir = some d →
        (d ++ [ident]) ++ [RESET_MARKER_FILE] ∉ fs.entries →
        checkAndResetPermissionsEarly ident webviewFolder fs = fs) ∧
    (checkAndResetPermissionsEarly ident webviewFolder fs ≠ fs →
        ∃ d, fs.dataLocalDir = some d ∧
          (d ++ [ident]) ++ [RESET_MARKER_FILE] ∈ fs.entries) := by
  refine ⟨fun h => ?_, fun d hd hm => ?_, fun hne => ?_⟩
  · simp [checkAndResetPermissionsEarly, h]
  · simp only [checkAndResetPermissionsEarly, hd]
    rw [if_neg hm]
  · cases hdl : fs.dataLocalDir with
    | none => exact absurd (by simp [checkAndResetPermissionsEarly, hdl]) hne
    | some d =>
        by_cases hm : (d ++ [ident]) ++ [RESET_MARKER_FILE] ∈ fs.entries
        · exact ⟨d, rfl, hm⟩
        · refine absurd ?_ hne
          simp only [checkAndResetPermissionsEarly, hdl]
          rw [if_neg hm]

/-- Witness for C10: with no data directory, and separately with a data
directory but no marker file, the routine is the identity. -/
theorem checkAndReset_noop_without_marker_witness :
    checkAndResetPermissionsEarly "com.secludia.app" "WebKit"
        { dataLocalDir := none, entries := [["tmp", "x"]] }
      = { dataLocalDir := none, entries := [["tmp", "x"]] } ∧
    checkAndResetPermissionsEarly "com.secludia.app" "WebKit"
        { dataLocalDir := some ["home"],
          entries := [["home", "com.secludia.app", "WebKit"]] }
      = { dataLocalDir := some ["home"],
          entries := [["home", "com.secludia.app", "WebKit"]] } :=
  ⟨(checkAndReset_noop_without_marker "com.secludia.app" "WebKit"
      { dataLocalDir := none, entries := [["tmp", "x"]] }).1 rfl,
   (checkAndReset_noop_without_marker "com.secludia.app" "WebKit"
      { dataLocalDir := some ["home"],
        entries := [["home", "com.secludia.app", "WebKit"]] }).2.1
      ["home"] rfl (by decide)⟩

end Secludia
